import Mathlib

/-!
Shallow embedding of the flex-db gRPC handler and relationship service
layer (Go sources: internal/grpc/tenant_handler.go and
internal/service/relationship_service.go).

Go strings are modelled as lists of characters; the empty Go string is
the empty list.  Go errors are modelled as a pair of the message and the
result of the errors.Is chain check against repository.ErrNotFound,
which is the only error-identity check the handler performs.
-/

/-- GoStr models a Go string value as a list of characters. -/
abbrev GoStr := List Char

namespace FlexDb

/-- GoError models a Go error value as seen by mapError: its message
(the result of err.Error) and whether errors.Is(err, repository.ErrNotFound)
holds for it. -/
structure GoError where
  isNotFound : Bool
  msg : GoStr
  deriving Repr, DecidableEq

/-- errorf models fmt.Errorf with a constant format string: a plain error
whose message is the given text and which is not in the ErrNotFound chain. -/
def errorf (s : String) : GoError :=
  { isNotFound := false, msg := s.toList }

/-- GrpcCode models the gRPC status codes referenced by this development:
the three codes mapError can produce, plus AlreadyExists, the code gRPC
reserves for conflict/uniqueness failures, which mapError never produces. -/
inductive GrpcCode where
  | notFound
  | invalidArgument
  | internal
  | alreadyExists
  deriving Repr, DecidableEq

/-- GrpcStatus models the google.golang.org/grpc status error built by
status.Error(code, msg). -/
structure GrpcStatus where
  code : GrpcCode
  msg : GoStr
  deriving Repr, DecidableEq

/-- containsAt embeds the Go helper containsAt of tenant_handler.go:
a loop with i going from 0 while i <= len(s)-len(substr), returning true
as soon as the slice s[i:i+len(substr)] equals substr.  The loop bound
len(s)-len(substr) is Go int arithmetic; when len(substr) > len(s) the Go
loop body never runs, and here the single index produced by the truncated
Nat subtraction compares a list shorter than substr against substr, which
also fails, so the two definitions agree on every input. -/
def containsAt (s substr : GoStr) : Bool :=
  (List.range (s.length - substr.length + 1)).any
    (fun i => (s.drop i).take substr.length == substr)

/-- contains embeds the Go helper contains of tenant_handler.go:
len(s) >= len(substr) && (s == substr || len(s) > 0 && containsAt(s, substr)). -/
def contains (s substr : GoStr) : Bool :=
  decide (substr.length ≤ s.length) &&
    (s == substr || (decide (0 < s.length) && containsAt s substr))

/-- containsAny embeds the Go helper containsAny of tenant_handler.go:
it returns true when contains holds of s and any of the given substrings. -/
def containsAny (s : GoStr) (substrs : List GoStr) : Bool :=
  substrs.any (fun substr => contains s substr)

/-- mapError embeds mapError of tenant_handler.go: an error in the
ErrNotFound chain becomes codes.NotFound with the message verbatim;
otherwise an error whose message has the substring "required" or
"invalid" becomes codes.InvalidArgument with the message verbatim;
every other error becomes codes.Internal, likewise with the message. -/
def mapError (e : GoError) : GrpcStatus :=
  if e.isNotFound then
    { code := GrpcCode.notFound, msg := e.msg }
  else if containsAny e.msg ["required".toList, "invalid".toList] then
    { code := GrpcCode.invalidArgument, msg := e.msg }
  else
    { code := GrpcCode.internal, msg := e.msg }

/-- Relationship models repository.Relationship, the entity struct of the
data model: identifier, tenant scope, the two endpoint nodes, the
relationship type, the opaque data document and the two timestamps
(modelled as opaque naturals).  The Go zero value of a string field is the
empty list and of a time field is 0. -/
structure Relationship where
  id : GoStr
  tenantID : GoStr
  sourceNodeID : GoStr
  targetNodeID : GoStr
  relationshipType : GoStr
  data : GoStr
  createdAt : Nat
  updatedAt : Nat
  deriving Repr, DecidableEq

/-- ListOptions models repository.ListOptions: page size and page token. -/
structure ListOptions where
  pageSize : Int
  pageToken : GoStr
  deriving Repr, DecidableEq

/-- ListResult models repository.ListResult: next page token and total count. -/
structure ListResult where
  nextPageToken : GoStr
  totalCount : Int
  deriving Repr, DecidableEq

/-- RepoCall records one invocation of a repository.RelationshipRepository
method together with its arguments, so that theorems can speak about which
storage operations a service call performs. -/
inductive RepoCall where
  | create (rel : Relationship)
  | getByID (tenantID id : GoStr)
  | update (rel : Relationship)
  | delete (tenantID id : GoStr)
  | list (tenantID sourceNodeID targetNodeID relType : GoStr) (opts : ListOptions)
  deriving Repr, DecidableEq

/-- RelationshipRepository models the repository.RelationshipRepository
interface consumed by the service: one pure function per method, giving
the value the storage layer would return.  The service layer under
verification is parameterized over an arbitrary such repository. -/
structure RelationshipRepository where
  createFn : Relationship → Except GoError Relationship
  getByIDFn : GoStr → GoStr → Except GoError Relationship
  updateFn : Relationship → Except GoError Relationship
  deleteFn : GoStr → GoStr → Except GoError Unit
  listFn : GoStr → GoStr → GoStr → GoStr → ListOptions →
    Except GoError (List Relationship × ListResult)

namespace RelationshipService

/-- Create embeds RelationshipService.Create of relationship_service.go:
it rejects an empty tenant_id, source_node_id, target_node_id or
relationship_type with a validation error before any repository call,
and otherwise builds the entity (identifier and timestamps left at their
zero values) and hands it to the repository Create.  The second component
is the list of repository calls performed. -/
def create (repo : RelationshipRepository)
    (tenantID sourceNodeID targetNodeID relType data : GoStr) :
    Except GoError Relationship × List RepoCall :=
  if tenantID = [] then (Except.error (errorf "tenant_id is required"), [])
  else if sourceNodeID = [] then (Except.error (errorf "source_node_id is required"), [])
  else if targetNodeID = [] then (Except.error (errorf "target_node_id is required"), [])
  else if relType = [] then (Except.error (errorf "relationship_type is required"), [])
  else
    let rel : Relationship :=
      { id := [], tenantID := tenantID, sourceNodeID := sourceNodeID,
        targetNodeID := targetNodeID, relationshipType := relType,
        data := data, createdAt := 0, updatedAt := 0 }
    (repo.createFn rel, [RepoCall.create rel])

/-- GetByID embeds RelationshipService.GetByID of relationship_service.go:
it rejects an empty id, then an empty tenant_id, before calling the
repository GetByID. -/
def getByID (repo : RelationshipRepository) (tenantID id : GoStr) :
    Except GoError Relationship × List RepoCall :=
  if id = [] then (Except.error (errorf "id is required"), [])
  else if tenantID = [] then (Except.error (errorf "tenant_id is required"), [])
  else (repo.getByIDFn tenantID id, [RepoCall.getByID tenantID id])

/-- Update embeds RelationshipService.Update of relationship_service.go:
after rejecting an empty id or tenant_id, it fetches the stored entity
through the repository GetByID and, on error, returns that error without
any further repository call; otherwise it overwrites RelationshipType
exactly when relType is non-empty and Data exactly when data is non-empty,
and passes the resulting entity to the repository Update. -/
def update (repo : RelationshipRepository) (tenantID id relType data : GoStr) :
    Except GoError Relationship × List RepoCall :=
  if id = [] then (Except.error (errorf "id is required"), [])
  else if tenantID = [] then (Except.error (errorf "tenant_id is required"), [])
  else
    match repo.getByIDFn tenantID id with
    | Except.error e => (Except.error e, [RepoCall.getByID tenantID id])
    | Except.ok rel =>
      let rel1 := if relType ≠ [] then { rel with relationshipType := relType } else rel
      let rel2 := if data ≠ [] then { rel1 with data := data } else rel1
      (repo.updateFn rel2, [RepoCall.getByID tenantID id, RepoCall.update rel2])

/-- Delete embeds RelationshipService.Delete of relationship_service.go:
it rejects an empty id, then an empty tenant_id, before calling the
repository Delete. -/
def delete (repo : RelationshipRepository) (tenantID id : GoStr) :
    Except GoError Unit × List RepoCall :=
  if id = [] then (Except.error (errorf "id is required"), [])
  else if tenantID = [] then (Except.error (errorf "tenant_id is required"), [])
  else (repo.deleteFn tenantID id, [RepoCall.delete tenantID id])

/-- List embeds RelationshipService.List of relationship_service.go:
it rejects an empty tenant_id and otherwise forwards the filters and the
pagination options to the repository List. -/
def list (repo : RelationshipRepository)
    (tenantID sourceNodeID targetNodeID relType : GoStr)
    (pageSize : Int) (pageToken : GoStr) :
    Except GoError (List Relationship × ListResult) × List RepoCall :=
  if tenantID = [] then (Except.error (errorf "tenant_id is required"), [])
  else
    let opts : ListOptions := { pageSize := pageSize, pageToken := pageToken }
    (repo.listFn tenantID sourceNodeID targetNodeID relType opts,
      [RepoCall.list tenantID sourceNodeID targetNodeID relType opts])

end RelationshipService

/-- isValidationRejection holds of a service outcome that carries a
Validation error (an error which mapError classifies as InvalidArgument
and which is not in the NotFound chain) and whose repository-call trace
is empty, so storage was never touched. -/
def isValidationRejection {α : Type} (r : Except GoError α × List RepoCall) : Prop :=
  (∃ e, r.1 = Except.error e ∧ e.isNotFound = false ∧
    (mapError e).code = GrpcCode.invalidArgument) ∧ r.2 = []

/-- PaginationRequest models pb.PaginationRequest: a page size (a proto
int32, modelled as an integer) and a page token.  A request whose
Pagination field is nil is modelled as the value none of
Option PaginationRequest. -/
structure PaginationRequest where
  pageSize : Int
  pageToken : GoStr
  deriving Repr, DecidableEq

/-- listTenantsListArgs embeds the pagination-normalisation prefix of
TenantHandler.ListTenants in tenant_handler.go: pageSize starts at 10 and
pageToken empty; when req.Pagination is non-nil, pageToken is taken from
it and pageSize is overwritten only when the requested size is positive.
The result is the (pageSize, pageToken) pair the handler passes to
svc.List. -/
def listTenantsListArgs (pagination : Option PaginationRequest) : Int × GoStr :=
  let pageSize : Int := 10
  let pageToken : GoStr := []
  match pagination with
  | none => (pageSize, pageToken)
  | some p => (if p.pageSize > 0 then p.pageSize else pageSize, p.pageToken)

/-- sampleRel is a concrete stored relationship used to instantiate
universally quantified theorems in their witnesses. -/
def sampleRel : Relationship :=
  { id := "r1".toList, tenantID := "t1".toList, sourceNodeID := "n1".toList,
    targetNodeID := "n2".toList, relationshipType := "linked".toList,
    data := "payload".toList, createdAt := 5, updatedAt := 6 }

/-- okRepo is a concrete repository whose GetByID always finds sampleRel
and whose write operations succeed, used to instantiate theorems in
their witnesses. -/
def okRepo : RelationshipRepository :=
  { createFn := fun rel => Except.ok rel,
    getByIDFn := fun _ _ => Except.ok sampleRel,
    updateFn := fun rel => Except.ok rel,
    deleteFn := fun _ _ => Except.ok (),
    listFn := fun _ _ _ _ _ =>
      Except.ok ([], { nextPageToken := [], totalCount := 0 }) }

/-- notFoundErr is a concrete error in the repository.ErrNotFound chain,
as the repository returns when a row is absent. -/
def notFoundErr : GoError :=
  { isNotFound := true, msg := "relationship not found".toList }

/-- missingRepo is a concrete repository whose GetByID always fails with
notFoundErr, used to instantiate theorems in their witnesses. -/
def missingRepo : RelationshipRepository :=
  { createFn := fun rel => Except.ok rel,
    getByIDFn := fun _ _ => Except.error notFoundErr,
    updateFn := fun rel => Except.ok rel,
    deleteFn := fun _ _ => Except.ok (),
    listFn := fun _ _ _ _ _ =>
      Except.ok ([], { nextPageToken := [], totalCount := 0 }) }

/-- conflictSlugErr is modelled from the spec: the Generic Repository and
the TenantService are not part of the sources under verification, and the
spec states that Create "fails with Conflict on uniqueness violation
(slug, email, or composite membership key)".  The uniqueness-violation
error reaching mapError is therefore modelled as a Go error that is not
in the ErrNotFound chain and carries the PostgreSQL duplicate-key
message for the tenant slug constraint. -/
def conflictSlugErr : GoError :=
  { isNotFound := false,
    msg := "duplicate key value violates unique constraint tenants_slug_key".toList }

/-- containsAt finds an occurrence exactly when some index i has the
slice of s at i of the length of substr equal to substr, with the whole
slice inside s. -/
theorem containsAt_eq_true_iff (s sub : GoStr) :
    containsAt s sub = true ↔
      ∃ i, i + sub.length ≤ s.length ∧ (s.drop i).take sub.length = sub := by
  unfold containsAt
  rw [List.any_eq_true]
  constructor
  · rintro ⟨i, hi, hbeq⟩
    rw [List.mem_range] at hi
    rw [beq_iff_eq] at hbeq
    refine ⟨i, ?_, hbeq⟩
    by_contra hlt
    have hlen := congrArg List.length hbeq
    simp only [List.length_take, List.length_drop] at hlen
    omega
  · rintro ⟨i, hle, heq⟩
    refine ⟨i, ?_, by rw [beq_iff_eq]; exact heq⟩
    rw [List.mem_range]
    omega

/-- contains decides exactly the occurs-as-contiguous-substring relation,
stated as the existence of a left and a right context. -/
theorem contains_eq_true_iff (s sub : GoStr) :
    contains s sub = true ↔ ∃ t u, t ++ sub ++ u = s := by
  unfold contains
  simp only [Bool.and_eq_true, Bool.or_eq_true, decide_eq_true_eq, beq_iff_eq,
    containsAt_eq_true_iff]
  constructor
  · rintro ⟨hlen, hcase⟩
    rcases hcase with rfl | ⟨hpos, i, hle, heq⟩
    · exact ⟨[], [], by simp⟩
    · refine ⟨s.take i, s.drop (i + sub.length), ?_⟩
      have hdd : (s.drop i).drop sub.length = s.drop (i + sub.length) := by
        rw [List.drop_drop, Nat.add_comm]
      rw [List.append_assoc]
      conv_rhs => rw [← List.take_append_drop i s]
      congr 1
      conv_rhs => rw [← List.take_append_drop sub.length (s.drop i)]
      rw [heq, hdd]
  · rintro ⟨t, u, rfl⟩
    refine ⟨by simp only [List.length_append]; omega, ?_⟩
    by_cases hs : t ++ sub ++ u = sub
    · exact Or.inl hs
    · refine Or.inr ⟨?_, t.length, ?_, ?_⟩
      · by_contra hz
        have hlen0 : (t ++ sub ++ u).length = 0 := by omega
        have hnil := List.eq_nil_of_length_eq_zero hlen0
        obtain ⟨h1, hu⟩ := List.append_eq_nil.mp hnil
        obtain ⟨ht, hsub⟩ := List.append_eq_nil.mp h1
        exact hs (by simp [ht, hsub, hu])
      · simp only [List.length_append]; omega
      · rw [List.append_assoc, List.drop_left, List.take_left]

/-- C9: the hand-rolled helper contains(s, substr) returns true exactly
when substr occurs as a contiguous substring of s — in particular the
empty substring always occurs, and nothing but the empty substring occurs
in the empty s — so it coincides with the standard substring predicate
(the existence of a decomposition s = t ++ substr ++ u); and containsAny
with that single substring agrees with contains. -/
theorem contains_iff_substring (s sub : GoStr) :
    (contains s sub = true ↔ ∃ t u, t ++ sub ++ u = s) ∧
    containsAny s [sub] = contains s sub := by
  refine ⟨contains_eq_true_iff s sub, ?_⟩
  simp [containsAny]

/-- C9 witness: the theorem instantiated at s = "abc" and substr = "bc",
whose occurrence is exhibited by the decomposition "a" ++ "bc" ++ "". -/
theorem contains_iff_substring_witness :
    contains "abc".toList "bc".toList = true ∧
    containsAny "abc".toList ["bc".toList] = contains "abc".toList "bc".toList :=
  ⟨(contains_iff_substring "abc".toList "bc".toList).1.mpr ⟨"a".toList, [], by decide⟩,
    (contains_iff_substring "abc".toList "bc".toList).2⟩

/-- validation outcomes built by the service guards satisfy
isValidationRejection once the concrete message is classified as
InvalidArgument by mapError. -/
theorem isValidationRejection_errorf {α : Type} (m : String)
    (h : (mapError (errorf m)).code = GrpcCode.invalidArgument) :
    isValidationRejection ((Except.error (errorf m) : Except GoError α), ([] : List RepoCall)) :=
  ⟨⟨errorf m, rfl, rfl, h⟩, rfl⟩

/-- C1: every operation of the Relationship service rejects an empty
required string argument (tenant_id everywhere; id for GetByID, Update
and Delete; source_node_id, target_node_id and relationship_type for
Create) with a Validation error — one mapError classifies as
InvalidArgument and not NotFound — and an empty repository-call trace,
so storage is never touched, for every repository. -/
theorem relationshipService_rejects_empty_required
    (repo : RelationshipRepository)
    (tenantID sourceNodeID targetNodeID relType data id pageToken : GoStr)
    (pageSize : Int) :
    (tenantID = [] ∨ sourceNodeID = [] ∨ targetNodeID = [] ∨ relType = [] →
      isValidationRejection
        (RelationshipService.create repo tenantID sourceNodeID targetNodeID relType data)) ∧
    (tenantID = [] ∨ id = [] →
      isValidationRejection (RelationshipService.getByID repo tenantID id)) ∧
    (tenantID = [] ∨ id = [] →
      isValidationRejection (RelationshipService.update repo tenantID id relType data)) ∧
    (tenantID = [] ∨ id = [] →
      isValidationRejection (RelationshipService.delete repo tenantID id)) ∧
    (tenantID = [] →
      isValidationRejection
        (RelationshipService.list repo tenantID sourceNodeID targetNodeID relType
          pageSize pageToken)) := by
  refine ⟨?_, ?_, ?_, ?_, ?_⟩ <;> intro h
  · unfold RelationshipService.create
    repeat' split
    any_goals exact isValidationRejection_errorf _ (by decide)
    all_goals rcases h with rfl | rfl | rfl | rfl <;> simp_all
  · unfold RelationshipService.getByID
    repeat' split
    any_goals exact isValidationRejection_errorf _ (by decide)
    all_goals rcases h with rfl | rfl <;> simp_all
  · unfold RelationshipService.update
    repeat' split
    any_goals exact isValidationRejection_errorf _ (by decide)
    all_goals rcases h with rfl | rfl <;> simp_all
  · unfold RelationshipService.delete
    repeat' split
    any_goals exact isValidationRejection_errorf _ (by decide)
    all_goals rcases h with rfl | rfl <;> simp_all
  · unfold RelationshipService.list
    repeat' split
    all_goals exact isValidationRejection_errorf _ (by decide)

/-- C1 witness: the theorem instantiated at the concrete repository
okRepo, once with an empty tenant_id and once with an empty id. -/
theorem relationshipService_rejects_empty_required_witness :
    isValidationRejection
      (RelationshipService.create okRepo [] "n1".toList "n2".toList "linked".toList
        "payload".toList) ∧
    isValidationRejection (RelationshipService.getByID okRepo "t1".toList []) ∧
    isValidationRejection (RelationshipService.update okRepo "t1".toList [] [] []) ∧
    isValidationRejection (RelationshipService.delete okRepo [] "r1".toList) ∧
    isValidationRejection
      (RelationshipService.list okRepo [] [] [] [] 10 []) := by
  have hA := relationshipService_rejects_empty_required okRepo [] "n1".toList "n2".toList
    "linked".toList "payload".toList "r1".toList [] 10
  have hB := relationshipService_rejects_empty_required okRepo "t1".toList "n1".toList
    "n2".toList [] [] [] [] 10
  exact ⟨hA.1 (Or.inl rfl), hB.2.1 (Or.inr rfl), hB.2.2.1 (Or.inr rfl),
    hA.2.2.2.1 (Or.inl rfl), hA.2.2.2.2 rfl⟩

/-- C2: for a stored relationship found by the repository GetByID,
Update with empty relationship_type and data passes the fetched entity
to the repository Update unchanged in every field; with a non-empty
relationship_type (respectively data) and the other argument empty, only
that one field of the fetched entity is overwritten before the
repository Update. -/
theorem relationshipService_update_frame
    (repo : RelationshipRepository) (tenantID id : GoStr) (rel : Relationship)
    (hid : id ≠ []) (htid : tenantID ≠ [])
    (hget : repo.getByIDFn tenantID id = Except.ok rel) :
    (RelationshipService.update repo tenantID id [] [] =
      (repo.updateFn rel, [RepoCall.getByID tenantID id, RepoCall.update rel])) ∧
    (∀ relType, relType ≠ [] →
      RelationshipService.update repo tenantID id relType [] =
        (repo.updateFn { rel with relationshipType := relType },
          [RepoCall.getByID tenantID id,
            RepoCall.update { rel with relationshipType := relType }])) ∧
    (∀ data, data ≠ [] →
      RelationshipService.update repo tenantID id [] data =
        (repo.updateFn { rel with data := data },
          [RepoCall.getByID tenantID id,
            RepoCall.update { rel with data := data }])) := by
  unfold RelationshipService.update
  refine ⟨?_, ?_, ?_⟩
  · simp [hid, htid, hget]
  · intro relType hrt
    simp [hid, htid, hget, hrt]
  · intro data hd
    simp [hid, htid, hget, hd]

/-- C2 witness: the theorem instantiated at okRepo, which stores
sampleRel: the all-empty update passes sampleRel through unchanged, and
a type-only update overwrites only the relationship type. -/
theorem relationshipService_update_frame_witness :
    (RelationshipService.update okRepo "t1".toList "r1".toList [] [] =
      (okRepo.updateFn sampleRel,
        [RepoCall.getByID "t1".toList "r1".toList, RepoCall.update sampleRel])) ∧
    (RelationshipService.update okRepo "t1".toList "r1".toList "renamed".toList [] =
      (okRepo.updateFn { sampleRel with relationshipType := "renamed".toList },
        [RepoCall.getByID "t1".toList "r1".toList,
          RepoCall.update { sampleRel with relationshipType := "renamed".toList }])) := by
  have h := relationshipService_update_frame okRepo "t1".toList "r1".toList sampleRel
    (by decide) (by decide) rfl
  exact ⟨h.1, h.2.1 "renamed".toList (by decide)⟩

/-- C7: when the repository GetByID fails, Update returns exactly that
error, performs only the read, and issues no repository Update call, for
every repository and arguments. -/
theorem relationshipService_update_getError
    (repo : RelationshipRepository) (tenantID id relType data : GoStr) (e : GoError)
    (hid : id ≠ []) (htid : tenantID ≠ [])
    (hget : repo.getByIDFn tenantID id = Except.error e) :
    RelationshipService.update repo tenantID id relType data =
      (Except.error e, [RepoCall.getByID tenantID id]) ∧
    ∀ r, RepoCall.update r ∉ (RelationshipService.update repo tenantID id relType data).2 := by
  have hmain : RelationshipService.update repo tenantID id relType data =
      (Except.error e, [RepoCall.getByID tenantID id]) := by
    unfold RelationshipService.update
    simp [hid, htid, hget]
  refine ⟨hmain, ?_⟩
  intro r
  rw [hmain]
  simp

/-- C7 witness: the theorem instantiated at missingRepo, whose GetByID
fails with the NotFound-chain error notFoundErr; the error is returned
as-is and mapError classifies it as NotFound. -/
theorem relationshipService_update_getError_witness :
    RelationshipService.update missingRepo "t1".toList "r1".toList "x".toList "y".toList =
      (Except.error notFoundErr, [RepoCall.getByID "t1".toList "r1".toList]) ∧
    (mapError notFoundErr).code = GrpcCode.notFound := by
  have h := relationshipService_update_getError missingRepo "t1".toList "r1".toList
    "x".toList "y".toList notFoundErr (by decide) (by decide) rfl
  exact ⟨h.1, by decide⟩

/-- C6: for every error in the repository.ErrNotFound chain, mapError
returns code NotFound with the message verbatim, whatever the message
contains — the NotFound check precedes the validation-substring check. -/
theorem mapError_notFound_precedence (e : GoError) (h : e.isNotFound = true) :
    mapError e = { code := GrpcCode.notFound, msg := e.msg } := by
  unfold mapError
  rw [h]
  simp

/-- C6 witness: the theorem instantiated at a NotFound-chain error whose
message contains both "required" and "invalid", which is still mapped to
NotFound with the message verbatim. -/
theorem mapError_notFound_precedence_witness :
    mapError { isNotFound := true, msg := "required node invalid or missing".toList } =
      { code := GrpcCode.notFound, msg := "required node invalid or missing".toList } ∧
    containsAny "required node invalid or missing".toList
      ["required".toList, "invalid".toList] = true :=
  ⟨mapError_notFound_precedence
      { isNotFound := true, msg := "required node invalid or missing".toList } rfl,
    by decide⟩

/-- C3 counterexample: an error classified as Internal — not in the
NotFound chain, message without the substrings "required" or "invalid" —
is returned with its message included verbatim, so the returned failure
is not opaque. -/
theorem mapError_internal_leaks_message :
    mapError { isNotFound := false, msg := "pg: connection refused".toList } =
      { code := GrpcCode.internal, msg := "pg: connection refused".toList } := by
  decide

/-- C3 (amended): every error classified as Internal is returned as code
Internal carrying the underlying message verbatim; the message is not
redacted, so storage internals can reach the caller. -/
theorem mapError_internal_carries_message (e : GoError)
    (h1 : e.isNotFound = false)
    (h2 : containsAny e.msg ["required".toList, "invalid".toList] = false) :
    mapError e = { code := GrpcCode.internal, msg := e.msg } := by
  unfold mapError
  rw [h1, h2]
  simp

/-- C3 witness: the amended theorem instantiated at a concrete
driver-level error. -/
theorem mapError_internal_carries_message_witness :
    mapError { isNotFound := false, msg := "disk failure on control db".toList } =
      { code := GrpcCode.internal, msg := "disk failure on control db".toList } :=
  mapError_internal_carries_message
    { isNotFound := false, msg := "disk failure on control db".toList } rfl (by decide)

/-- C4 counterexample: the uniqueness-violation error modelled from the
spec (duplicate tenant slug) is surfaced by mapError as code Internal —
one of the very kinds the claim says Conflict is distinct from — and not
as any Conflict-like status. -/
theorem mapError_conflict_surfaced_as_internal :
    mapError conflictSlugErr = { code := GrpcCode.internal, msg := conflictSlugErr.msg } := by
  decide

/-- C4 (amended): mapError never produces the AlreadyExists code gRPC
reserves for conflicts: every error is mapped to NotFound,
InvalidArgument or Internal, so a uniqueness violation reaching the
handler is surfaced under one of those three kinds, not as a distinct
Conflict kind. -/
theorem mapError_range_no_conflict (e : GoError) :
    ((mapError e).code = GrpcCode.notFound ∨
      (mapError e).code = GrpcCode.invalidArgument ∨
      (mapError e).code = GrpcCode.internal) ∧
    (mapError e).code ≠ GrpcCode.alreadyExists := by
  unfold mapError
  repeat' split
  all_goals simp

/-- C4 witness: the amended theorem instantiated at the modelled
duplicate-slug conflict error. -/
theorem mapError_range_no_conflict_witness :
    ((mapError conflictSlugErr).code = GrpcCode.notFound ∨
      (mapError conflictSlugErr).code = GrpcCode.invalidArgument ∨
      (mapError conflictSlugErr).code = GrpcCode.internal) ∧
    (mapError conflictSlugErr).code ≠ GrpcCode.alreadyExists :=
  mapError_range_no_conflict conflictSlugErr

/-- C5: ListTenants calls the tenant service List with page size 10 when
the request carries no pagination or a non-positive page size, and with
exactly the requested page size when it is positive. -/
theorem listTenants_pageSize_default (p : PaginationRequest) :
    (listTenantsListArgs none).1 = 10 ∧
    (p.pageSize ≤ 0 → (listTenantsListArgs (some p)).1 = 10) ∧
    (0 < p.pageSize → (listTenantsListArgs (some p)).1 = p.pageSize) := by
  refine ⟨rfl, ?_, ?_⟩ <;> intro h <;>
    show (if 0 < p.pageSize then p.pageSize else (10 : Int)) = _
  · rw [if_neg (by omega)]
  · rw [if_pos h]

/-- C5 witness: the theorem instantiated at a missing pagination, a zero
page size and the positive page size 7. -/
theorem listTenants_pageSize_default_witness :
    (listTenantsListArgs none).1 = 10 ∧
    (listTenantsListArgs (some { pageSize := 0, pageToken := [] })).1 = 10 ∧
    (listTenantsListArgs (some { pageSize := 7, pageToken := [] })).1 = 7 :=
  ⟨(listTenants_pageSize_default { pageSize := 0, pageToken := [] }).1,
    (listTenants_pageSize_default { pageSize := 0, pageToken := [] }).2.1 (by decide),
    (listTenants_pageSize_default { pageSize := 7, pageToken := [] }).2.2 (by decide)⟩

/-- C10: ListTenants applies no maximum cap: every positive requested
page size representable in the int32 field is forwarded to the service
unchanged. -/
theorem listTenants_pageSize_no_cap (n : Int) (tok : GoStr)
    (hpos : 0 < n) (_h32 : n < 2147483648) :
    (listTenantsListArgs (some { pageSize := n, pageToken := tok })).1 = n := by
  show (if 0 < n then n else (10 : Int)) = n
  rw [if_pos hpos]

/-- C10 witness: the theorem instantiated at the largest int32 value,
which is forwarded unchanged. -/
theorem listTenants_pageSize_no_cap_witness :
    (listTenantsListArgs (some { pageSize := 2147483647, pageToken := [] })).1
      = 2147483647 :=
  listTenants_pageSize_no_cap 2147483647 [] (by decide) (by decide)

end FlexDb
